import Mathlib

/-!
Verification development for the Xget edge proxy (Cloudflare Worker).

The JavaScript sources are shallowly embedded as executable Lean
definitions.  JavaScript strings are modelled as `String`, with all
operations carried out on the underlying character list (`String.data`)
by structurally recursive functions, so that every definition evaluates
inside the kernel (`decide` / `rfl`).

Embedded components:
 * `src/config/platforms.js` — `PLATFORMS`, `SORTED_PLATFORMS`,
   `transformPath`;
 * `src/index.js` — platform resolution, the fetch/retry/timeout loop and
   its post-loop error classification, the cache-store decision, and the
   Docker 401 bearer-token redirect handling;
 * `src/protocols/docker.js` — `getScopeFromUrl`;
 * `src/config/index.js` — `createConfig`;
 * `src/utils/security.js` — `addSecurityHeaders`, `createErrorResponse`.
-/

/-- Character lists: the carrier for JavaScript string computations. -/
abbrev Chars := List Char

/-- JavaScript `s.split(sep)` for a one-character separator: `"".split` is
`[""]`, a leading separator yields a leading empty field, and so on. -/
def jsSplit (sep : Char) : Chars → List Chars
  | [] => [[]]
  | c :: cs =>
    let r := jsSplit sep cs
    if c == sep then [] :: r
    else
      match r with
      | [] => [[c]]
      | h :: t => (c :: h) :: t

/-- JavaScript `s.replace('-', '/')`-style single-character replacement of
only the first occurrence (a non-global string pattern). -/
def replaceFirstChar (a b : Char) : Chars → Chars
  | [] => []
  | c :: cs => if c == a then b :: cs else c :: replaceFirstChar a b cs

/-- JavaScript global-regexp replacement of every occurrence of one
character by another (the `replace(hyphen-regexp-with-g-flag, '/')` calls). -/
def replaceAllChar (a b : Char) (s : Chars) : Chars :=
  s.map fun c => if c == a then b else c

/-- JavaScript `s.replace(pat, rep)` with a plain-string pattern: only the
first occurrence of `pat` is replaced. -/
def jsReplaceFirstList (s pat rep : Chars) : Chars :=
  match s with
  | [] => if pat.isEmpty then rep else []
  | c :: cs =>
    if pat.isPrefixOf (c :: cs) then rep ++ (c :: cs).drop pat.length
    else c :: jsReplaceFirstList cs pat rep

/-- JavaScript `Array.prototype.join('/')`. -/
def joinSlash : List Chars → Chars
  | [] => []
  | [x] => x
  | x :: xs => x ++ '/' :: joinSlash xs

/-- Does the character list start with `'/'` (JavaScript `startsWith('/')`)? -/
def leadSlash : Chars → Bool
  | '/' :: _ => true
  | _ => false

/-- The platform table of `src/config/platforms.js` (`PLATFORMS`): platform
key to origin base URL, in the enumeration order of the source object. -/
def PLATFORMS : List (String × String) :=
  [("gh", "https://github.com"),
   ("gist", "https://gist.github.com"),
   ("gl", "https://gitlab.com"),
   ("gitea", "https://gitea.com"),
   ("codeberg", "https://codeberg.org"),
   ("sf", "https://sourceforge.net"),
   ("aosp", "https://android.googlesource.com"),
   ("hf", "https://huggingface.co"),
   ("civitai", "https://civitai.com"),
   ("npm", "https://registry.npmjs.org"),
   ("pypi", "https://pypi.org"),
   ("pypi-files", "https://files.pythonhosted.org"),
   ("conda", "https://repo.anaconda.com"),
   ("conda-community", "https://conda.anaconda.org"),
   ("maven", "https://repo1.maven.org"),
   ("apache", "https://downloads.apache.org"),
   ("gradle", "https://plugins.gradle.org"),
   ("homebrew", "https://github.com/Homebrew"),
   ("homebrew-api", "https://formulae.brew.sh/api"),
   ("homebrew-bottles", "https://ghcr.io"),
   ("rubygems", "https://rubygems.org"),
   ("cran", "https://cran.r-project.org"),
   ("cpan", "https://www.cpan.org"),
   ("ctan", "https://tug.ctan.org"),
   ("golang", "https://proxy.golang.org"),
   ("nuget", "https://api.nuget.org"),
   ("crates", "https://crates.io"),
   ("packagist", "https://repo.packagist.org"),
   ("debian", "https://deb.debian.org"),
   ("ubuntu", "https://archive.ubuntu.com"),
   ("fedora", "https://dl.fedoraproject.org"),
   ("rocky", "https://download.rockylinux.org"),
   ("opensuse", "https://download.opensuse.org"),
   ("arch", "https://geo.mirror.pkgbuild.com"),
   ("arxiv", "https://arxiv.org"),
   ("fdroid", "https://f-droid.org"),
   ("jenkins", "https://updates.jenkins.io"),
   ("ip-openai", "https://api.openai.com"),
   ("ip-anthropic", "https://api.anthropic.com"),
   ("ip-gemini", "https://generativelanguage.googleapis.com"),
   ("ip-vertexai", "https://aiplatform.googleapis.com"),
   ("ip-cohere", "https://api.cohere.ai"),
   ("ip-mistralai", "https://api.mistral.ai"),
   ("ip-xai", "https://api.x.ai"),
   ("ip-githubmodels", "https://models.github.ai"),
   ("ip-nvidiaapi", "https://integrate.api.nvidia.com"),
   ("ip-perplexity", "https://api.perplexity.ai"),
   ("ip-braintrust", "https://api.braintrust.dev"),
   ("ip-groq", "https://api.groq.com"),
   ("ip-cerebras", "https://api.cerebras.ai"),
   ("ip-sambanova", "https://api.sambanova.ai"),
   ("ip-siray", "https://api.siray.ai"),
   ("ip-huggingface", "https://router.huggingface.co"),
   ("ip-together", "https://api.together.xyz"),
   ("ip-replicate", "https://api.replicate.com"),
   ("ip-fireworks", "https://api.fireworks.ai"),
   ("ip-nebius", "https://api.studio.nebius.ai"),
   ("ip-jina", "https://api.jina.ai"),
   ("ip-voyageai", "https://api.voyageai.com"),
   ("ip-falai", "https://fal.run"),
   ("ip-novita", "https://api.novita.ai"),
   ("ip-burncloud", "https://ai.burncloud.com"),
   ("ip-openrouter", "https://openrouter.ai"),
   ("ip-poe", "https://api.poe.com"),
   ("ip-featherlessai", "https://api.featherless.ai"),
   ("ip-hyperbolic", "https://api.hyperbolic.xyz"),
   ("cr-docker", "https://registry-1.docker.io"),
   ("cr-quay", "https://quay.io"),
   ("cr-gcr", "https://gcr.io"),
   ("cr-mcr", "https://mcr.microsoft.com"),
   ("cr-ecr", "https://public.ecr.aws"),
   ("cr-ghcr", "https://ghcr.io"),
   ("cr-gitlab", "https://registry.gitlab.com"),
   ("cr-redhat", "https://registry.redhat.io"),
   ("cr-oracle", "https://container-registry.oracle.com"),
   ("cr-cloudsmith", "https://docker.cloudsmith.io"),
   ("cr-digitalocean", "https://registry.digitalocean.com"),
   ("cr-vmware", "https://projects.registry.vmware.com"),
   ("cr-k8s", "https://registry.k8s.io"),
   ("cr-heroku", "https://registry.heroku.com"),
   ("cr-suse", "https://registry.suse.com"),
   ("cr-opensuse", "https://registry.opensuse.org"),
   ("cr-gitpod", "https://registry.gitpod.io")]

/-- JavaScript `PLATFORMS[key]`: the base URL registered for `key`, if any. -/
def lookupPlatform (key : String) : Option String :=
  (PLATFORMS.find? fun kv => kv.1 == key).map fun kv => kv.2

/-- The platform keys in source enumeration order (`Object.keys(PLATFORMS)`). -/
def PLATFORM_KEYS : List String := PLATFORMS.map fun kv => kv.1

/-- The crates.io special case of `transformPath`: prepend `/api/v1/crates`,
going through `replace('/', '/api/v1/crates')` for the search endpoint. -/
def cratesTransform (tp : Chars) : Chars :=
  if leadSlash tp then
    if tp == "/".data || "/?".data.isPrefixOf tp then
      jsReplaceFirstList tp "/".data "/api/v1/crates".data
    else "/api/v1/crates".data ++ tp
  else tp

/-- The Jenkins special case of `transformPath` (already known to start
with `'/'` at its call site). -/
def jenkinsTransform (tp : Chars) : Chars :=
  if tp == "/update-center.json".data then "/current/update-center.json".data
  else if tp == "/update-center.actual.json".data then
    "/current/update-center.actual.json".data
  else if "/experimental/".data.isPrefixOf tp || "/download/".data.isPrefixOf tp
      || "/current/".data.isPrefixOf tp then tp
  else "/current".data ++ tp

/-- `transformPath(path, platformKey)` from `src/config/platforms.js`:
return `path` unchanged for unknown keys; otherwise strip the platform
path (all hyphens of the key become slashes) from the front of `path`,
replacing it with `/`, then apply the per-platform special cases
(crates, homebrew-api, homebrew-bottles, jenkins, homebrew) in source
order, each returning early exactly as in the source. -/
def transformPath (path platformKey : String) : String :=
  match lookupPlatform platformKey with
  | none => path
  | some _ =>
    let platformPath : Chars := '/' :: replaceAllChar '-' '/' platformKey.data ++ "/".data
    let tp0 : Chars :=
      if platformPath.isPrefixOf path.data then '/' :: path.data.drop platformPath.length
      else path.data
    let tp1 : Chars := if platformKey == "crates" then cratesTransform tp0 else tp0
    if platformKey == "homebrew-api" && leadSlash tp1 then ⟨tp1⟩
    else if platformKey == "homebrew-bottles" && leadSlash tp1 then ⟨tp1⟩
    else if platformKey == "jenkins" && leadSlash tp1 then ⟨jenkinsTransform tp1⟩
    else if platformKey == "homebrew" && leadSlash tp1 then ⟨tp1⟩
    else ⟨tp1⟩

/-- Insert into a sorted list, keeping `a` before the first element `b`
with `le a b` — the placement a stable comparison sort gives an element
relative to already-placed later elements. -/
def orderedInsertBy {α : Type} (le : α → α → Bool) (a : α) : List α → List α
  | [] => [a]
  | b :: l => if le a b then a :: b :: l else b :: orderedInsertBy le a l

/-- Stable sort by a boolean comparison, modelling JavaScript's
`Array.prototype.sort` (stable since ES2019) with comparator
`(a, b) => f(b) - f(a)` when `le a b` is `f b ≤ f a`. -/
def stableSortBy {α : Type} (le : α → α → Bool) : List α → List α
  | [] => []
  | a :: l => orderedInsertBy le a (stableSortBy le l)

/-- The route-matching path of a platform key used by `SORTED_PLATFORMS`
and the `handleRequest` platform finder: `'/' + key.replace('-', '/') + '/'`
(only the first hyphen is replaced — a string pattern, not a global one). -/
def expectedPathOf (k : String) : Chars :=
  '/' :: replaceFirstChar '-' '/' k.data ++ "/".data

/-- `SORTED_PLATFORMS` from `src/config/platforms.js`: the platform keys
sorted by route-path length descending (comparator
`pathB.length - pathA.length`), ties keeping enumeration order. -/
def SORTED_PLATFORMS : List String :=
  stableSortBy (fun a b => (expectedPathOf b).length ≤ (expectedPathOf a).length) PLATFORM_KEYS

/-- Platform detection of `handleRequest` (src/index.js lines 91-95):
the first key of `SORTED_PLATFORMS` whose route path starts the effective
path; otherwise the first path segment (`effectivePath.split('/')[1]`),
with the JavaScript falsy check on the fallback made explicit. -/
def resolvePlatform (effectivePath : String) : Option String :=
  match SORTED_PLATFORMS.find? (fun k => (expectedPathOf k).isPrefixOf effectivePath.data) with
  | some k => some k
  | none =>
    let seg := (jsSplit '/' effectivePath.data).getD 1 []
    if seg.isEmpty then none else some ⟨seg⟩

/-- The recognised v2-API suffix segments of `getScopeFromUrl`
(`['manifests', 'blobs', 'tags', 'referrers']`). -/
def registrySuffixSegments : List Chars :=
  ["manifests", "blobs", "tags", "referrers"].map String.data

/-- The platform path with every hyphen of the key turned into a slash
(the `platform.replace` with a global hyphen regexp in
`getScopeFromUrl`), wrapped in slashes. -/
def platformPathAll (platform : String) : Chars :=
  '/' :: replaceAllChar '-' '/' platform.data ++ "/".data

/-- The repo name before Docker-Hub normalisation: the repo path segments
up to the first recognised v2-API suffix segment (all of them when none
occurs), re-joined with slashes. -/
def repoNameRawOf (repoParts : List Chars) : Chars :=
  match repoParts.findIdx? (fun p => registrySuffixSegments.contains p) with
  | some i => joinSlash (repoParts.take i)
  | none => joinSlash repoParts

/-- Docker-Hub official-image normalisation: for the `cr-docker` platform
a non-empty repo name without an embedded slash gains a `library/`
front. -/
def dockerNormalize (platform : String) (repoNameRaw : Chars) : Chars :=
  if platform == "cr-docker" && !repoNameRaw.isEmpty && !repoNameRaw.contains '/' then
    "library/".data ++ repoNameRaw
  else repoNameRaw

/-- `getScopeFromUrl(url, effectivePath, platform)` from
`src/protocols/docker.js`: catalog paths map to `registry:catalog:*`;
paths shaped `/v2/<platformPath>/<repo>/(manifests|blobs|tags|referrers)/...`
map to `repository:<repo>:pull`, normalising a slash-free repo name to
`library/<name>` for the `cr-docker` platform; anything else maps to the
empty string.  `url` is represented by its pathname. -/
def getScopeFromUrl (pathname effectivePath platform : String) : String :=
  if (jsSplit '/' pathname.data).contains "_catalog".data then "registry:catalog:*"
  else if 4 ≤ (jsSplit '/' pathname.data).length
      && (jsSplit '/' pathname.data).getD 1 [] == "v2".data then
    if (platformPathAll platform).isPrefixOf effectivePath.data then
      if 1 ≤ (jsSplit '/'
          (effectivePath.data.drop (platformPathAll platform).length)).length then
        if !(dockerNormalize platform (repoNameRawOf (jsSplit '/'
            (effectivePath.data.drop (platformPathAll platform).length)))).isEmpty then
          ⟨"repository:".data
            ++ dockerNormalize platform (repoNameRawOf (jsSplit '/'
                (effectivePath.data.drop (platformPathAll platform).length)))
            ++ ":pull".data⟩
        else ""
      else ""
    else ""
  else ""

/-- Request/response headers as a list of (name, value) pairs with names
stored lowercased, matching the case-insensitive JavaScript `Headers`. -/
abbrev HeaderList := List (String × String)

/-- Lowercase ASCII of a header name. -/
def lowerStr (s : String) : String := ⟨s.data.map Char.toLower⟩

/-- `Headers.prototype.set`: replace any entry of the (case-insensitive)
name, then record the new value. -/
def hset (h : HeaderList) (name value : String) : HeaderList :=
  h.filter (fun kv => kv.1 != lowerStr name) ++ [(lowerStr name, value)]

/-- `Headers.prototype.delete`. -/
def hdelete (h : HeaderList) (name : String) : HeaderList :=
  h.filter fun kv => kv.1 != lowerStr name

/-- `Headers.prototype.get` (`none` for a missing header). -/
def hget (h : HeaderList) (name : String) : Option String :=
  (h.find? fun kv => kv.1 == lowerStr name).map fun kv => kv.2

/-- `addSecurityHeaders(headers)` from `src/utils/security.js`: set the six
security headers, in source order. -/
def addSecurityHeaders (headers : HeaderList) : HeaderList :=
  hset (hset (hset (hset (hset (hset headers
    "Strict-Transport-Security" "max-age=31536000; includeSubDomains; preload")
    "X-Frame-Options" "DENY")
    "X-XSS-Protection" "1; mode=block")
    "Referrer-Policy" "strict-origin-when-cross-origin")
    "Content-Security-Policy" "default-src 'none'; img-src 'self'; script-src 'none'")
    "Permissions-Policy" "interest-cohort=()"

/-- The `Response` built by `createErrorResponse`.  `message` is the
message argument; the actual body is that message verbatim when
`detailed` is false, and its `JSON.stringify` wrapping (with the HTTP
status and a call-time timestamp, an effect not modelled here) when
`detailed` is true. -/
structure ErrorResponse where
  status : Nat
  headers : HeaderList
  message : String
  detailed : Bool
deriving DecidableEq

/-- `createErrorResponse(message, status, includeDetails)` from
`src/utils/security.js`: an error response whose headers are the six
security headers over a Content-Type of `application/json` (detailed)
or `text/plain` (plain). -/
def createErrorResponse (message : String) (status : Nat) (includeDetails : Bool) :
    ErrorResponse :=
  { status := status
    headers := addSecurityHeaders
      (hset [] "Content-Type" (if includeDetails then "application/json" else "text/plain"))
    message := message
    detailed := includeDetails }

/-- JavaScript `response.ok`: status in the range 200-299. -/
def respOkB (s : Nat) : Bool := 200 ≤ s && s ≤ 299

/-- What one upstream fetch attempt of the retry loop can produce: an HTTP
response with a status code, a thrown network error with a message, or a
thrown `AbortError` from the per-attempt timeout timer. -/
inductive FetchOutcome
  | httpStatus (code : Nat)
  | networkError (message : String)
  | abortTimeout
deriving DecidableEq

/-- The value of the `response` variable when the retry loop of
`handleRequest` (src/index.js lines 273-470) is left, for a non-Docker,
non-HEAD request:
 * `upstreamResp c` — the last upstream response (a success/206 or 4xx
   break, or the 5xx still held when attempts ran out);
 * `timeoutResp` — `createErrorResponse('Request timeout', 408)`;
 * `failedAfterResp n msg` — the 500 built as
   `Failed after N attempts: message` when a thrown error exhausted the
   attempts (`msg` is that full message);
 * `noResp` — the loop never ran, `response` is still unset. -/
inductive LoopOutcome
  | upstreamResp (code : Nat)
  | timeoutResp
  | failedAfterResp (attemptCount : Nat) (errorMessage : String)
  | noResp
deriving DecidableEq

/-- Observable result of the retry loop: its outcome, the number of
upstream fetch attempts performed, and the backoff sleeps (in ms) in
order. -/
structure RetryResult where
  outcome : LoopOutcome
  fetchCount : Nat
  sleeps : List Nat
deriving DecidableEq

/-- One iteration (and the following ones) of the retry loop of
`handleRequest`, for a non-Docker, non-HEAD request, driven by an
`upstream` oracle giving each attempt's outcome.  `attempts` is the loop
counter; `fuel` bounds the remaining iterations (the loop itself
guarantees `maxRetries - attempts` suffices, since every non-breaking
iteration increments `attempts`).  Mirrors src/index.js lines 274-470:
success/206 breaks; 4xx breaks; other statuses retry with a sleep of
`retryDelayMs * attempts` when attempts remain, else the loop exits
holding the last response; a thrown `AbortError` breaks with the 408
response; other thrown errors retry the same way but build the
`Failed after N attempts` 500 when attempts are exhausted. -/
def retryLoopGo (maxRetries retryDelayMs : Nat) (upstream : Nat → FetchOutcome) :
    Nat → Nat → RetryResult
  | _, 0 => ⟨.noResp, 0, []⟩
  | attempts, fuel + 1 =>
    match upstream attempts with
    | .httpStatus c =>
      if respOkB c || c == 206 then ⟨.upstreamResp c, 1, []⟩
      else if 400 ≤ c && c < 500 then ⟨.upstreamResp c, 1, []⟩
      else if attempts + 1 < maxRetries then
        let r := retryLoopGo maxRetries retryDelayMs upstream (attempts + 1) fuel
        ⟨r.outcome, r.fetchCount + 1, retryDelayMs * (attempts + 1) :: r.sleeps⟩
      else ⟨.upstreamResp c, 1, []⟩
    | .networkError m =>
      if maxRetries ≤ attempts + 1 then
        ⟨.failedAfterResp maxRetries
          ("Failed after " ++ Nat.repr maxRetries ++ " attempts: " ++ m), 1, []⟩
      else
        let r := retryLoopGo maxRetries retryDelayMs upstream (attempts + 1) fuel
        ⟨r.outcome, r.fetchCount + 1, retryDelayMs * (attempts + 1) :: r.sleeps⟩
    | .abortTimeout => ⟨.timeoutResp, 1, []⟩

/-- The whole retry loop (`while attempts < config.MAX_RETRIES`), entered
with `attempts = 0`. -/
def runRetryLoop (maxRetries retryDelayMs : Nat) (upstream : Nat → FetchOutcome) :
    RetryResult :=
  if maxRetries = 0 then ⟨.noResp, 0, []⟩
  else retryLoopGo maxRetries retryDelayMs upstream 0 maxRetries

/-- The response `handleRequest` hands on after the retry loop, for a
non-Docker request (src/index.js lines 472-500): a still-unset response
becomes a 500; a response that is neither ok nor 206 is re-wrapped as
`Upstream server error (status): body` keeping its status — in
particular the loop's 408 timeout response keeps status 408 and the
`Failed after N attempts` response keeps status 500; otherwise the
success path continues. -/
inductive FinalResp
  | successResp (status : Nat)
  | upstreamError (status : Nat)
  | timeoutError
  | retriesExhausted (attemptCount : Nat) (errorMessage : String)
  | noResponseError
deriving DecidableEq

/-- The HTTP status of each final response shape (the 408 and the two
500s are fixed by the `createErrorResponse` calls that build them). -/
def statusOfFinal : FinalResp → Nat
  | .successResp c => c
  | .upstreamError c => c
  | .timeoutError => 408
  | .retriesExhausted _ _ => 500
  | .noResponseError => 500

/-- Post-loop classification of the retry-loop result (see `FinalResp`). -/
def finalizeResponse (r : RetryResult) : FinalResp :=
  match r.outcome with
  | .upstreamResp c => if respOkB c || c == 206 then .successResp c else .upstreamError c
  | .timeoutResp => .timeoutError
  | .failedAfterResp n m => .retriesExhausted n m
  | .noResp => .noResponseError

/-- A cache key as built by `new Request(targetUrl, {...})` in the caching
code of `handleRequest`: target URL, method, and the headers passed to the
constructor (none passed means an empty header set). -/
structure CacheKeyData where
  url : String
  method : String
  headers : HeaderList
deriving DecidableEq

/-- The cache-population decision of `handleRequest`
(src/index.js lines 577-626): the store key scheduled for `cache.put`,
or `none` when nothing is stored.  Storing requires a cache backend, a
non-protocol request (none of the Git/Git-LFS/Docker/AI/HF flags), no
sensitive headers, request method GET, and a final response that is ok
with status exactly 200.  With a Range header on the original request the
key keeps the original headers minus Range; without one the key is built
as `new Request(targetUrl, { method: 'GET' })`, with no headers. -/
def cacheStoreDecision (cachePresent isGit isGitLFS isDocker isAI isHF
    hasSensitiveHeaders : Bool) (method : String) (respStatus : Nat)
    (reqHeaders : HeaderList) (targetUrl : String) : Option CacheKeyData :=
  if cachePresent && !isGit && !isGitLFS && !isDocker && !isAI && !isHF
      && !hasSensitiveHeaders && method == "GET" && respOkB respStatus
      && respStatus == 200 then
    match hget reqHeaders "Range" with
    | some _ =>
      some ⟨targetUrl, "GET", reqHeaders.filter fun kv => lowerStr kv.1 != "range"⟩
    | none => some ⟨targetUrl, "GET", []⟩
  else none

/-- One outgoing `fetch` call: its URL, headers and redirect mode. -/
structure FetchCall where
  url : String
  headers : HeaderList
  redirectMode : String
deriving DecidableEq

/-- The fetches performed by the bearer-token retry of the Docker 401
branch of `handleRequest` (src/index.js lines 389-422): the retry itself
goes to `targetUrl` with `Authorization: Bearer <token>` set over the
outgoing request headers and manual redirects; if that retry answers 301,
302 or 307 with a `Location`, the redirect target is fetched with the
Authorization header deleted and redirect mode `follow`. -/
def dockerTokenRetryFetches (targetUrl : String) (requestHeaders : HeaderList)
    (token : String) (retryStatus : Nat) (retryLocation : Option String) :
    List FetchCall :=
  let retryHeaders := hset requestHeaders "Authorization" ("Bearer " ++ token)
  let firstCall : FetchCall := ⟨targetUrl, retryHeaders, "manual"⟩
  if retryStatus == 301 || retryStatus == 302 || retryStatus == 307 then
    match retryLocation with
    | some location =>
      [firstCall, ⟨location, hdelete retryHeaders "Authorization", "follow"⟩]
    | none => [firstCall]
  else [firstCall]

/-- JavaScript `parseInt(s, 10)`: skip leading whitespace, an optional
sign, then greedy decimal digits; no digits means `NaN` (`none`). -/
def parseIntJS (s : String) : Option Int :=
  let t := s.data.dropWhile fun c => c == ' ' || c == '\t' || c == '\n' || c == '\r'
  let signedTail : Bool × Chars :=
    match t with
    | '-' :: r => (true, r)
    | '+' :: r => (false, r)
    | r => (false, r)
  let ds := signedTail.2.takeWhile Char.isDigit
  if ds.isEmpty then none
  else
    let v : Nat := ds.foldl (fun a c => a * 10 + (c.toNat - 48)) 0
    some (if signedTail.1 then -(v : Int) else (v : Int))

/-- JavaScript `String(x)` on an optional environment value: `undefined`
prints as the string `"undefined"`. -/
def jsString : Option String → String
  | some s => s
  | none => "undefined"

/-- `parseInt(String(v), 10) || d`: `NaN` and `0` are falsy and fall back
to the default. -/
def intOrDefault (v : Option String) (d : Int) : Int :=
  match parseIntJS (jsString v) with
  | none => d
  | some n => if n = 0 then d else n

/-- The environment-override map consulted by `createConfig` (each entry a
string when set, as in a Workers environment). -/
structure EnvOverrides where
  TIMEOUT_SECONDS : Option String
  MAX_RETRIES : Option String
  RETRY_DELAY_MS : Option String
  CACHE_DURATION : Option String
  ALLOWED_METHODS : Option String
  ALLOWED_ORIGINS : Option String
  MAX_PATH_LENGTH : Option String

/-- The `SECURITY` sub-object of the application configuration. -/
structure SecurityConfig where
  ALLOWED_METHODS : List String
  ALLOWED_ORIGINS : List String
  MAX_PATH_LENGTH : Int
deriving DecidableEq

/-- The application configuration produced by `createConfig`. -/
structure ApplicationConfig where
  TIMEOUT_SECONDS : Int
  MAX_RETRIES : Int
  RETRY_DELAY_MS : Int
  CACHE_DURATION : Int
  SECURITY : SecurityConfig
  PLATFORMS : List (String × String)
deriving DecidableEq

/-- JavaScript `s.split(',')` producing strings. -/
def splitCommaStr (s : String) : List String :=
  (jsSplit ',' s.data).map fun cs => ⟨cs⟩

/-- `createConfig(env)` from `src/config/index.js`: each numeric setting is
`parseInt(String(env.X), 10) || default`; the method/origin lists are
comma-split when the override is a string, else the defaults. -/
def createConfig (env : EnvOverrides) : ApplicationConfig :=
  { TIMEOUT_SECONDS := intOrDefault env.TIMEOUT_SECONDS 30
    MAX_RETRIES := intOrDefault env.MAX_RETRIES 3
    RETRY_DELAY_MS := intOrDefault env.RETRY_DELAY_MS 1000
    CACHE_DURATION := intOrDefault env.CACHE_DURATION 1800
    SECURITY :=
      { ALLOWED_METHODS :=
          match env.ALLOWED_METHODS with
          | some s => splitCommaStr s
          | none => ["GET", "HEAD"]
        ALLOWED_ORIGINS :=
          match env.ALLOWED_ORIGINS with
          | some s => splitCommaStr s
          | none => ["*"]
        MAX_PATH_LENGTH := intOrDefault env.MAX_PATH_LENGTH 2048 }
    PLATFORMS := PLATFORMS }

theorem hget_hdelete (h : HeaderList) (name : String) :
    hget (hdelete h name) name = none := by
  induction h with
  | nil => rfl
  | cons kv t ih =>
    simp only [hdelete, List.filter_cons] at *
    by_cases hk : kv.1 = lowerStr name
    · simp [hk, ih]
    · simp only [bne_iff_ne, ne_eq, hk, not_false_eq_true, if_true]
      simp [hget, List.find?_cons, hk, ih]

/-- Claim C10: every response of `createErrorResponse` carries the six
security headers, has the given status, and has Content-Type
`application/json` when `includeDetails` is true, `text/plain` otherwise. -/
theorem C10_createErrorResponse_headers :
    ∀ (message : String) (status : Nat) (includeDetails : Bool),
      (createErrorResponse message status includeDetails).status = status ∧
      hget (createErrorResponse message status includeDetails).headers
        "Strict-Transport-Security" = some "max-age=31536000; includeSubDomains; preload" ∧
      hget (createErrorResponse message status includeDetails).headers
        "X-Frame-Options" = some "DENY" ∧
      hget (createErrorResponse message status includeDetails).headers
        "X-XSS-Protection" = some "1; mode=block" ∧
      hget (createErrorResponse message status includeDetails).headers
        "Referrer-Policy" = some "strict-origin-when-cross-origin" ∧
      hget (createErrorResponse message status includeDetails).headers
        "Content-Security-Policy" =
          some "default-src 'none'; img-src 'self'; script-src 'none'" ∧
      hget (createErrorResponse message status includeDetails).headers
        "Permissions-Policy" = some "interest-cohort=()" ∧
      hget (createErrorResponse message status includeDetails).headers
        "Content-Type" =
          some (if includeDetails then "application/json" else "text/plain") := by
  intro message status includeDetails
  refine ⟨rfl, ?_, ?_, ?_, ?_, ?_, ?_, ?_⟩ <;>
  · show hget (addSecurityHeaders (hset [] "Content-Type"
        (if includeDetails then "application/json" else "text/plain"))) _ = _
    cases includeDetails <;> decide

/-- Claim C2: the four `transformPath` test vectors — the crates download
and search rewrites, the Jenkins update-center rewrite, and identity for
any key missing from the platform table. -/
theorem C2_transformPath_vectors :
    transformPath "/crates/serde/1.0.0/download" "crates"
        = "/api/v1/crates/serde/1.0.0/download" ∧
    transformPath "/crates/?q=tokio" "crates" = "/api/v1/crates?q=tokio" ∧
    transformPath "/jenkins/update-center.json" "jenkins"
        = "/current/update-center.json" ∧
    ∀ key : String, lookupPlatform key = none →
      transformPath "/unknown/x" key = "/unknown/x" := by
  refine ⟨by decide, by decide, by decide, ?_⟩
  intro key hmiss
  unfold transformPath
  rw [hmiss]

theorem C2_transformPath_vectors_witness :
    lookupPlatform "missing-key" = none ∧
    transformPath "/unknown/x" "missing-key" = "/unknown/x" :=
  ⟨by decide, C2_transformPath_vectors.2.2.2 "missing-key" (by decide)⟩

/-- Claim C9: an environment override of `"0"` for any numeric setting
falls back to the default (integer parsing is combined with the JavaScript
falsy-fallback `||`), while negative integer strings are accepted as
given. -/
theorem C9_createConfig_zero_overrides :
    ∀ env : EnvOverrides,
      (env.TIMEOUT_SECONDS = some "0" → (createConfig env).TIMEOUT_SECONDS = 30) ∧
      (env.MAX_RETRIES = some "0" → (createConfig env).MAX_RETRIES = 3) ∧
      (env.RETRY_DELAY_MS = some "0" → (createConfig env).RETRY_DELAY_MS = 1000) ∧
      (env.CACHE_DURATION = some "0" → (createConfig env).CACHE_DURATION = 1800) ∧
      (env.MAX_PATH_LENGTH = some "0" →
        (createConfig env).SECURITY.MAX_PATH_LENGTH = 2048) ∧
      (env.TIMEOUT_SECONDS = some "-7" → (createConfig env).TIMEOUT_SECONDS = -7) ∧
      (env.MAX_RETRIES = some "-2" → (createConfig env).MAX_RETRIES = -2) := by
  intro env
  refine ⟨?_, ?_, ?_, ?_, ?_, ?_, ?_⟩ <;> intro h <;>
    simp only [createConfig] <;> rw [h] <;> decide

theorem C9_createConfig_zero_overrides_witness :
    (createConfig ⟨some "0", some "0", some "0", some "0", none, none, some "0"⟩).TIMEOUT_SECONDS = 30 ∧
    (createConfig ⟨some "0", some "0", some "0", some "0", none, none, some "0"⟩).MAX_RETRIES = 3 ∧
    (createConfig ⟨some "0", some "0", some "0", some "0", none, none, some "0"⟩).RETRY_DELAY_MS = 1000 ∧
    (createConfig ⟨some "0", some "0", some "0", some "0", none, none, some "0"⟩).CACHE_DURATION = 1800 ∧
    (createConfig ⟨some "0", some "0", some "0", some "0", none, none, some "0"⟩).SECURITY.MAX_PATH_LENGTH = 2048 ∧
    (createConfig ⟨some "-7", some "-2", none, none, none, none, none⟩).TIMEOUT_SECONDS = -7 ∧
    (createConfig ⟨some "-7", some "-2", none, none, none, none, none⟩).MAX_RETRIES = -2 :=
  ⟨(C9_createConfig_zero_overrides ⟨some "0", some "0", some "0", some "0", none, none, some "0"⟩).1 rfl,
   (C9_createConfig_zero_overrides ⟨some "0", some "0", some "0", some "0", none, none, some "0"⟩).2.1 rfl,
   (C9_createConfig_zero_overrides ⟨some "0", some "0", some "0", some "0", none, none, some "0"⟩).2.2.1 rfl,
   (C9_createConfig_zero_overrides ⟨some "0", some "0", some "0", some "0", none, none, some "0"⟩).2.2.2.1 rfl,
   (C9_createConfig_zero_overrides ⟨some "0", some "0", some "0", some "0", none, none, some "0"⟩).2.2.2.2.1 rfl,
   (C9_createConfig_zero_overrides ⟨some "-7", some "-2", none, none, none, none, none⟩).2.2.2.2.2.1 rfl,
   (C9_createConfig_zero_overrides ⟨some "-7", some "-2", none, none, none, none, none⟩).2.2.2.2.2.2 rfl⟩

/-- Claim C5 (counterexample): at a cacheable GET-200 response whose
request carried an `accept` header and no Range header, the scheduled
store key is built by `new Request(targetUrl, { method: 'GET' })` and so
carries no headers — not the original request headers the claim
describes. -/
theorem C5_counterexample :
    cacheStoreDecision true false false false false false false "GET" 200
        [("accept", "text/html")] "https://crates.io/api/v1/crates/serde"
      = some ⟨"https://crates.io/api/v1/crates/serde", "GET", []⟩ ∧
    cacheStoreDecision true false false false false false false "GET" 200
        [("accept", "text/html")] "https://crates.io/api/v1/crates/serde"
      ≠ some ⟨"https://crates.io/api/v1/crates/serde", "GET",
          [("accept", "text/html")]⟩ := by
  decide

/-- Claim C5 (amended): a store is scheduled only for request method GET
with final status exactly 200; with a Range header on the original
request the store key keeps the original headers minus Range, and without
one the store key carries no headers at all. -/
theorem C5_cache_store_policy :
    ∀ (cachePresent isGit isGitLFS isDocker isAI isHF hasSensitiveHeaders : Bool)
      (method : String) (respStatus : Nat) (reqHeaders : HeaderList)
      (targetUrl : String) (key : CacheKeyData),
      cacheStoreDecision cachePresent isGit isGitLFS isDocker isAI isHF
          hasSensitiveHeaders method respStatus reqHeaders targetUrl = some key →
      method = "GET" ∧ respStatus = 200 ∧
      (hget reqHeaders "Range" = none → key = ⟨targetUrl, "GET", []⟩) ∧
      (∀ rangeValue, hget reqHeaders "Range" = some rangeValue →
        key = ⟨targetUrl, "GET",
          reqHeaders.filter fun kv => lowerStr kv.1 != "range"⟩) := by
  intro cachePresent isGit isGitLFS isDocker isAI isHF hasSensitiveHeaders
    method respStatus reqHeaders targetUrl key h
  unfold cacheStoreDecision at h
  split at h
  case isFalse => exact absurd h (by simp)
  case isTrue hcond =>
    simp only [Bool.and_eq_true, beq_iff_eq] at hcond
    refine ⟨hcond.1.1.2, hcond.2, ?_, ?_⟩
    · intro hr
      rw [hr] at h
      exact (Option.some_inj.mp h).symm
    · intro rangeValue hr
      rw [hr] at h
      exact (Option.some_inj.mp h).symm

theorem C5_cache_store_policy_witness :
    "GET" = "GET" ∧ 200 = 200 ∧
    (hget [("range", "bytes=0-5"), ("accept", "text/html")] "Range" = none →
      (⟨"https://pypi.org/f", "GET", [("accept", "text/html")]⟩ : CacheKeyData)
        = ⟨"https://pypi.org/f", "GET", []⟩) ∧
    (∀ rangeValue,
      hget [("range", "bytes=0-5"), ("accept", "text/html")] "Range" = some rangeValue →
      (⟨"https://pypi.org/f", "GET", [("accept", "text/html")]⟩ : CacheKeyData)
        = ⟨"https://pypi.org/f", "GET",
            List.filter (fun kv => lowerStr kv.1 != "range")
              [("range", "bytes=0-5"), ("accept", "text/html")]⟩) :=
  C5_cache_store_policy true false false false false false false "GET" 200
    [("range", "bytes=0-5"), ("accept", "text/html")] "https://pypi.org/f"
    ⟨"https://pypi.org/f", "GET", [("accept", "text/html")]⟩ (by decide)

/-- Claim C6: when the bearer-token retry of the Docker 401 flow receives
a 301, 302 or 307 with a Location, the follow-up fetch of that location
is issued with the Authorization header deleted from the retry's headers
— no Authorization header is present on the redirect-following request. -/
theorem C6_docker_retry_redirect_strips_authorization :
    ∀ (targetUrl : String) (requestHeaders : HeaderList) (token : String)
      (retryStatus : Nat) (location : String),
      (retryStatus = 301 ∨ retryStatus = 302 ∨ retryStatus = 307) →
      ∃ redirectCall : FetchCall,
        dockerTokenRetryFetches targetUrl requestHeaders token retryStatus
            (some location)
          = [⟨targetUrl, hset requestHeaders "Authorization" ("Bearer " ++ token),
              "manual"⟩,
             redirectCall] ∧
        redirectCall.url = location ∧
        redirectCall.redirectMode = "follow" ∧
        hget redirectCall.headers "Authorization" = none := by
  intro targetUrl requestHeaders token retryStatus location hst
  refine ⟨⟨location,
      hdelete (hset requestHeaders "Authorization" ("Bearer " ++ token)) "Authorization",
      "follow"⟩, ?_, rfl, rfl, hget_hdelete _ _⟩
  unfold dockerTokenRetryFetches
  rcases hst with h | h | h <;> subst h <;> rfl

theorem C6_docker_retry_redirect_strips_authorization_witness :
    ∃ redirectCall : FetchCall,
      dockerTokenRetryFetches "https://registry-1.docker.io/v2/library/ubuntu/blobs/sha256-x"
          [("accept", "application/vnd.oci.image.manifest.v1+json")] "tok123" 307
          (some "https://cdn.example.net/blob")
        = [⟨"https://registry-1.docker.io/v2/library/ubuntu/blobs/sha256-x",
            hset [("accept", "application/vnd.oci.image.manifest.v1+json")]
              "Authorization" ("Bearer " ++ "tok123"), "manual"⟩,
           redirectCall] ∧
      redirectCall.url = "https://cdn.example.net/blob" ∧
      redirectCall.redirectMode = "follow" ∧
      hget redirectCall.headers "Authorization" = none :=
  C6_docker_retry_redirect_strips_authorization
    "https://registry-1.docker.io/v2/library/ubuntu/blobs/sha256-x"
    [("accept", "application/vnd.oci.image.manifest.v1+json")] "tok123" 307
    "https://cdn.example.net/blob" (Or.inr (Or.inr rfl))

theorem retryLoopGo_fetchCount_le (mr d : Nat) (u : Nat → FetchOutcome) :
    ∀ (fuel attempts : Nat), (retryLoopGo mr d u attempts fuel).fetchCount ≤ fuel := by
  intro fuel
  induction fuel with
  | zero => intro attempts; exact Nat.le_refl 0
  | succ f ih =>
    intro attempts
    simp only [retryLoopGo]
    cases u attempts with
    | httpStatus c =>
      dsimp only
      split
      · exact Nat.succ_le_succ (Nat.zero_le f)
      · split
        · exact Nat.succ_le_succ (Nat.zero_le f)
        · split
          · exact Nat.succ_le_succ (ih _)
          · exact Nat.succ_le_succ (Nat.zero_le f)
    | networkError m =>
      dsimp only
      split
      · exact Nat.succ_le_succ (Nat.zero_le f)
      · exact Nat.succ_le_succ (ih _)
    | abortTimeout => exact Nat.succ_le_succ (Nat.zero_le f)

theorem retryLoopGo_abort (mr d : Nat) (u : Nat → FetchOutcome) :
    ∀ (k fuel attempts : Nat), k < fuel → attempts + k + 1 ≤ mr →
      (∀ j, j < k → ∃ c, u (attempts + j) = .httpStatus c ∧ 500 ≤ c) →
      u (attempts + k) = .abortTimeout →
      (retryLoopGo mr d u attempts fuel).outcome = .timeoutResp ∧
      (retryLoopGo mr d u attempts fuel).fetchCount = k + 1 := by
  intro k
  induction k with
  | zero =>
    intro fuel attempts hfuel hmr hprev habort
    cases fuel with
    | zero => exact absurd hfuel (by omega)
    | succ f =>
      rw [Nat.add_zero] at habort
      simp [retryLoopGo, habort]
  | succ k ih =>
    intro fuel attempts hfuel hmr hprev habort
    cases fuel with
    | zero => exact absurd hfuel (by omega)
    | succ f =>
      obtain ⟨c, hc, hc5⟩ := hprev 0 (Nat.succ_pos k)
      rw [Nat.add_zero] at hc
      have h1 : (respOkB c || c == 206) = false := by
        simp only [respOkB, Bool.or_eq_false_iff, Bool.and_eq_false_iff]
        constructor
        · right
          simp only [decide_eq_false_iff_not]
          omega
        · simp only [beq_eq_false_iff_ne, ne_eq]
          omega
      have h2 : (decide (400 ≤ c) && decide (c < 500)) = false := by
        simp only [Bool.and_eq_false_iff, decide_eq_false_iff_not]
        right
        omega
      have h3 : attempts + 1 < mr := by omega
      have hrec := ih f (attempts + 1) (by omega) (by omega)
        (fun j hj => by
          have := hprev (j + 1) (by omega)
          rwa [show attempts + (j + 1) = attempts + 1 + j by omega] at this)
        (by rwa [show attempts + 1 + k = attempts + (k + 1) by omega])
      simp only [retryLoopGo, hc, h1, h2, Bool.false_eq_true, if_false, if_pos h3]
      exact ⟨hrec.1, by rw [hrec.2]⟩

theorem retryLoopGo_all_netErr (mr d : Nat) (msgs : Nat → String) :
    ∀ (fuel attempts : Nat), attempts < mr → mr ≤ attempts + fuel →
      (retryLoopGo mr d (fun n => .networkError (msgs n)) attempts fuel).outcome
        = .failedAfterResp mr
            ("Failed after " ++ Nat.repr mr ++ " attempts: " ++ msgs (mr - 1)) := by
  intro fuel
  induction fuel with
  | zero => intro attempts h1 h2; exact absurd h2 (by omega)
  | succ f ih =>
    intro attempts h1 h2
    simp only [retryLoopGo]
    by_cases h : mr ≤ attempts + 1
    · have ha : attempts = mr - 1 := by omega
      rw [if_pos h, ha]
    · rw [if_neg h]
      exact ih (attempts + 1) (by omega) (by omega)

theorem retryLoopGo_all_503 (mr d : Nat) :
    ∀ (fuel attempts : Nat), attempts < mr → mr ≤ attempts + fuel →
      (retryLoopGo mr d (fun _ => .httpStatus 503) attempts fuel).outcome
        = .upstreamResp 503 := by
  intro fuel
  induction fuel with
  | zero => intro attempts h1 h2; exact absurd h2 (by omega)
  | succ f ih =>
    intro attempts h1 h2
    simp only [retryLoopGo]
    by_cases h : attempts + 1 < mr
    · rw [if_pos h]
      exact ih (attempts + 1) (by omega) (by omega)
    · rw [if_neg h]
      rfl

/-- The simulated upstream of the spec's retry scenario: 503 on the first
two attempts, 200 from the third on. -/
def upstreamTwice503 : Nat → FetchOutcome :=
  fun n => if n < 2 then .httpStatus 503 else .httpStatus 200

/-- Claim C1 (amended): on the 503-503-200 upstream with `maxRetries = 3`
the loop performs exactly 3 fetch attempts (2 retries) sleeping
`retryDelayMs * 1` then `retryDelayMs * 2` and returns the 200; for every
upstream behaviour the number of fetch attempts never exceeds
`maxRetries`; when every attempt throws a network error the handler
surfaces a 500 whose message names the attempt count; when the attempts
are exhausted by 5xx responses the handler instead surfaces the upstream
5xx status (not a 500 naming the attempt count). -/
theorem C1_retry_orchestration :
    (∀ d : Nat,
      runRetryLoop 3 d upstreamTwice503
          = ⟨.upstreamResp 200, 3, [d * 1, d * 2]⟩ ∧
      finalizeResponse (runRetryLoop 3 d upstreamTwice503) = .successResp 200) ∧
    (∀ (mr d : Nat) (u : Nat → FetchOutcome), (runRetryLoop mr d u).fetchCount ≤ mr) ∧
    (∀ (mr d : Nat) (msgs : Nat → String), 0 < mr →
      finalizeResponse (runRetryLoop mr d (fun n => .networkError (msgs n)))
          = .retriesExhausted mr
              ("Failed after " ++ Nat.repr mr ++ " attempts: " ++ msgs (mr - 1)) ∧
      statusOfFinal
          (finalizeResponse (runRetryLoop mr d (fun n => .networkError (msgs n))))
        = 500) ∧
    (∀ mr d : Nat, 0 < mr →
      finalizeResponse (runRetryLoop mr d (fun _ => .httpStatus 503))
        = .upstreamError 503) := by
  refine ⟨?_, ?_, ?_, ?_⟩
  · intro d
    exact ⟨rfl, rfl⟩
  · intro mr d u
    unfold runRetryLoop
    split
    · exact Nat.zero_le mr
    · exact retryLoopGo_fetchCount_le mr d u mr 0
  · intro mr d msgs hmr
    have h0 : mr ≠ 0 := by omega
    have hout := retryLoopGo_all_netErr mr d msgs mr 0 (by omega) (by omega)
    unfold runRetryLoop
    rw [if_neg h0]
    unfold runRetryLoop at hout
    constructor
    · simp only [finalizeResponse, hout]
    · simp only [finalizeResponse, hout, statusOfFinal]
  · intro mr d hmr
    have h0 : mr ≠ 0 := by omega
    have hout := retryLoopGo_all_503 mr d mr 0 (by omega) (by omega)
    unfold runRetryLoop
    rw [if_neg h0]
    simp only [finalizeResponse, hout]
    rfl

theorem C1_retry_orchestration_witness :
    (runRetryLoop 3 1000 upstreamTwice503
        = ⟨.upstreamResp 200, 3, [1000 * 1, 1000 * 2]⟩ ∧
      finalizeResponse (runRetryLoop 3 1000 upstreamTwice503) = .successResp 200) ∧
    (runRetryLoop 2 1000 (fun n => .networkError ((fun _ => "connect ECONNREFUSED") n))).fetchCount ≤ 2 ∧
    (finalizeResponse
        (runRetryLoop 2 1000 (fun n => .networkError ((fun _ => "connect ECONNREFUSED") n)))
      = .retriesExhausted 2
          ("Failed after " ++ Nat.repr 2 ++ " attempts: "
            ++ (fun _ : Nat => "connect ECONNREFUSED") (2 - 1))) ∧
    finalizeResponse (runRetryLoop 3 1000 (fun _ => .httpStatus 503))
      = .upstreamError 503 :=
  ⟨C1_retry_orchestration.1 1000,
   C1_retry_orchestration.2.1 2 1000 _,
   (C1_retry_orchestration.2.2.1 2 1000 (fun _ => "connect ECONNREFUSED") (by decide)).1,
   C1_retry_orchestration.2.2.2 3 1000 (by decide)⟩

/-- Claim C1 (counterexample): with `maxRetries = 3` and an upstream that
answers 503 on every attempt, the handler surfaces status 503 with an
`Upstream server error (503)` body — not the 500 naming the attempt count
that the claim asserts for 5xx exhaustion. -/
theorem C1_counterexample :
    finalizeResponse (runRetryLoop 3 1000 (fun _ => FetchOutcome.httpStatus 503))
        = FinalResp.upstreamError 503 ∧
    statusOfFinal
        (finalizeResponse (runRetryLoop 3 1000 (fun _ => FetchOutcome.httpStatus 503)))
      ≠ 500 := by
  decide

/-- Claim C8: when attempt `k` is aborted by the per-attempt timeout (after
`k` retryable 5xx attempts), the loop stops at once with the 408
`Request timeout` response — `k + 1` fetch attempts in total, no further
retries regardless of how many attempts remain under `maxRetries`. -/
theorem C8_timeout_returns_408_immediately :
    ∀ (mr d k : Nat) (u : Nat → FetchOutcome),
      k + 1 ≤ mr →
      (∀ j, j < k → ∃ c, u j = .httpStatus c ∧ 500 ≤ c) →
      u k = .abortTimeout →
      (runRetryLoop mr d u).outcome = .timeoutResp ∧
      (runRetryLoop mr d u).fetchCount = k + 1 ∧
      statusOfFinal (finalizeResponse (runRetryLoop mr d u)) = 408 := by
  intro mr d k u hmr hprev habort
  have h0 : mr ≠ 0 := by omega
  unfold runRetryLoop
  rw [if_neg h0]
  have hgo := retryLoopGo_abort mr d u k mr 0 (by omega) (by omega)
    (fun j hj => by simpa using hprev j hj)
    (by simpa using habort)
  refine ⟨hgo.1, hgo.2, ?_⟩
  simp only [finalizeResponse, hgo.1, statusOfFinal]

theorem C8_timeout_returns_408_immediately_witness :
    (runRetryLoop 3 1000
        (fun n => if n = 0 then FetchOutcome.httpStatus 503
          else FetchOutcome.abortTimeout)).outcome = .timeoutResp ∧
    (runRetryLoop 3 1000
        (fun n => if n = 0 then FetchOutcome.httpStatus 503
          else FetchOutcome.abortTimeout)).fetchCount = 1 + 1 ∧
    statusOfFinal (finalizeResponse (runRetryLoop 3 1000
        (fun n => if n = 0 then FetchOutcome.httpStatus 503
          else FetchOutcome.abortTimeout))) = 408 :=
  C8_timeout_returns_408_immediately 3 1000 1
    (fun n => if n = 0 then FetchOutcome.httpStatus 503 else FetchOutcome.abortTimeout)
    (by decide)
    (fun j hj => by
      interval_cases j
      exact ⟨503, rfl, by decide⟩)
    rfl

/-- Claim C7 (counterexample): re-transforming an already-transformed
path is not a no-op for the `crates` and `jenkins` keys — their
platform-specific rules fire even when the path does not begin with the
key's path prefix, prepending their API prefixes again. -/
theorem C7_counterexample :
    ('/' :: replaceAllChar '-' '/' "crates".data ++ "/".data).isPrefixOf
        "/api/v1/crates/serde".data = false ∧
    transformPath "/api/v1/crates/serde" "crates"
        = "/api/v1/crates/api/v1/crates/serde" ∧
    transformPath "/api/v1/crates/serde" "crates" ≠ "/api/v1/crates/serde" ∧
    ('/' :: replaceAllChar '-' '/' "jenkins".data ++ "/".data).isPrefixOf
        "/foo".data = false ∧
    transformPath "/foo" "jenkins" = "/current/foo" ∧
    transformPath "/foo" "jenkins" ≠ "/foo" := by
  decide

/-- Claim C7 (amended): for every path `p` and key `k` such that `p` does
not begin with `k`'s path prefix, and `k` is neither `crates` nor
`jenkins` (whose rewrite rules fire regardless of the prefix),
`transformPath p k = p`; in particular a second transformation under such
a key never prepends a prefix twice. -/
theorem C7_transform_identity (p k : String)
    (hnp : ('/' :: replaceAllChar '-' '/' k.data ++ "/".data).isPrefixOf p.data = false)
    (hcrates : k ≠ "crates") (hjenkins : k ≠ "jenkins") :
    transformPath p k = p := by
  unfold transformPath
  cases hlook : lookupPlatform k with
  | none => rfl
  | some urlValue =>
    have hc : (k == "crates") = false := by
      simp only [beq_eq_false_iff_ne, ne_eq]
      exact hcrates
    have hj : (k == "jenkins") = false := by
      simp only [beq_eq_false_iff_ne, ne_eq]
      exact hjenkins
    simp only [hnp, Bool.false_eq_true, if_false, hc, hj, Bool.false_and]
    split
    · rfl
    · split
      · rfl
      · split
        · rfl
        · rfl

theorem C7_transform_identity_witness :
    transformPath "/torvalds/linux" "gh" = "/torvalds/linux" :=
  C7_transform_identity "/torvalds/linux" "gh" (by decide) (by decide) (by decide)

/-- Claim C4: scope derivation — the fixed manifest-path vector gives
`repository:library/ubuntu:pull`; any path with a `_catalog` segment gives
`registry:catalog:*`; for `cr-docker` a slash-free repo name is
normalised with a `library/` front; a path fitting neither shape gives
the empty string. -/
theorem C4_getScopeFromUrl :
    getScopeFromUrl "/v2/cr/docker/library/ubuntu/manifests/latest"
        "/cr/docker/library/ubuntu/manifests/latest" "cr-docker"
      = "repository:library/ubuntu:pull" ∧
    (∀ pathname effectivePath platform : String,
      (jsSplit '/' pathname.data).contains "_catalog".data = true →
      getScopeFromUrl pathname effectivePath platform = "registry:catalog:*") ∧
    (∀ pathname effectivePath name tag : String,
      jsSplit '/' pathname.data
          = [[], "v2".data, "cr".data, "docker".data, name.data, "manifests".data,
             tag.data] →
      "/cr/docker/".data.isPrefixOf effectivePath.data = true →
      jsSplit '/' (effectivePath.data.drop 11) = [name.data, "manifests".data, tag.data] →
      name.data ≠ "_catalog".data → tag.data ≠ "_catalog".data →
      name.data.contains '/' = false →
      name.data ≠ [] →
      (∀ s ∈ registrySuffixSegments, name.data ≠ s) →
      getScopeFromUrl pathname effectivePath "cr-docker"
        = "repository:library/" ++ name ++ ":pull") ∧
    (∀ pathname effectivePath platform : String,
      (jsSplit '/' pathname.data).contains "_catalog".data = false →
      (4 ≤ (jsSplit '/' pathname.data).length
        && (jsSplit '/' pathname.data).getD 1 [] == "v2".data) = false →
      getScopeFromUrl pathname effectivePath platform = "") := by
  refine ⟨by decide, ?_, ?_, ?_⟩
  · intro pathname effectivePath platform h
    unfold getScopeFromUrl
    rw [h]
    rfl
  · intro pathname effectivePath name tag h1 h2 h3 hname htag hslash hne hsuffix
    have hm : name.data ≠ "manifests".data := hsuffix _ (by decide)
    have hb : name.data ≠ "blobs".data := hsuffix _ (by decide)
    have ht : name.data ≠ "tags".data := hsuffix _ (by decide)
    have hr : name.data ≠ "referrers".data := hsuffix _ (by decide)
    have hcat : (jsSplit '/' pathname.data).contains "_catalog".data = false := by
      rw [h1]
      simp only [List.contains_cons, List.contains_nil, Bool.or_false]
      simp [beq_eq_false_iff_ne, Ne.symm hname, Ne.symm htag]
    have hempty : name.data.isEmpty = false := by
      cases hd : name.data with
      | nil => exact absurd hd hne
      | cons a l => rfl
    have hpp : platformPathAll "cr-docker" = "/cr/docker/".data := by decide
    have hlen : ("/cr/docker/".data).length = 11 := by decide
    have hcontname : registrySuffixSegments.contains name.data = false := by
      simp only [registrySuffixSegments, List.map]
      simp only [List.contains_cons, List.contains_nil, Bool.or_false]
      simp [beq_eq_false_iff_ne, hm, hb, ht, hr]
    have hraw : repoNameRawOf [name.data, "manifests".data, tag.data] = name.data := by
      unfold repoNameRawOf
      rw [show List.findIdx? (fun p => registrySuffixSegments.contains p)
          [name.data, "manifests".data, tag.data] = some 1 from ?_]
      · rfl
      · rw [List.findIdx?_cons, hcontname]
        simp
        decide
    have hnorm : dockerNormalize "cr-docker" name.data = "library/".data ++ name.data := by
      unfold dockerNormalize
      rw [hempty, hslash]
      rfl
    unfold getScopeFromUrl
    rw [hcat, h1, hpp, hlen, h2, h3, hraw, hnorm]
    norm_num
    apply String.ext
    simp [String.data_append]
  · intro pathname effectivePath platform h1 h2
    unfold getScopeFromUrl
    rw [h1, h2]
    rfl

theorem C4_getScopeFromUrl_witness :
    getScopeFromUrl "/v2/x/_catalog" "/x/_catalog" "cr-docker" = "registry:catalog:*" ∧
    getScopeFromUrl "/v2/cr/docker/ubuntu/manifests/latest"
        "/cr/docker/ubuntu/manifests/latest" "cr-docker"
      = "repository:library/" ++ "ubuntu" ++ ":pull" ∧
    getScopeFromUrl "/gh/user/repo" "/gh/user/repo" "gh" = "" :=
  ⟨C4_getScopeFromUrl.2.1 "/v2/x/_catalog" "/x/_catalog" "cr-docker" (by decide),
   C4_getScopeFromUrl.2.2.1 "/v2/cr/docker/ubuntu/manifests/latest"
     "/cr/docker/ubuntu/manifests/latest" "ubuntu" "latest"
     (by decide) (by decide) (by decide) (by decide) (by decide) (by decide)
     (by decide) (by decide),
   C4_getScopeFromUrl.2.2.2 "/gh/user/repo" "/gh/user/repo" "gh" (by decide) (by decide)⟩

theorem isPrefixOf_self_append (p t : Chars) : p.isPrefixOf (p ++ t) = true := by
  induction p with
  | nil => simp [List.isPrefixOf]
  | cons a as ih => simp [List.isPrefixOf, ih]

theorem isPrefixOf_append_split :
    ∀ (q p t : Chars), p.isPrefixOf (q ++ t) = true →
      p.isPrefixOf q = true ∨ q.isPrefixOf p = true := by
  intro q
  induction q with
  | nil => intro p t _; right; simp [List.isPrefixOf]
  | cons b bs ih =>
    intro p t hp
    cases p with
    | nil => left; simp [List.isPrefixOf]
    | cons a as =>
      simp only [List.cons_append, List.isPrefixOf, Bool.and_eq_true] at hp
      rcases ih as t hp.2 with h1 | h2
      · left
        simp [List.isPrefixOf, hp.1, h1]
      · right
        have hab : a = b := by simpa using hp.1
        simp [List.isPrefixOf, hab, h2]

theorem mem_orderedInsertBy {α : Type} (le : α → α → Bool) (a x : α) :
    ∀ l : List α, x ∈ orderedInsertBy le a l ↔ x = a ∨ x ∈ l := by
  intro l
  induction l with
  | nil => simp [orderedInsertBy]
  | cons b l ih =>
    simp only [orderedInsertBy]
    split
    · simp [List.mem_cons]
    · simp only [List.mem_cons, ih]
      tauto

theorem mem_stableSortBy {α : Type} (le : α → α → Bool) (x : α) :
    ∀ l : List α, x ∈ stableSortBy le l ↔ x ∈ l := by
  intro l
  induction l with
  | nil => simp [stableSortBy]
  | cons a l ih =>
    simp only [stableSortBy, mem_orderedInsertBy, ih, List.mem_cons]

theorem find?_max_of_sorted {f : String → Nat} (p : String → Bool) :
    ∀ l : List String, List.Pairwise (fun a b => f b ≤ f a) l →
      ∀ r, l.find? p = some r → ∀ x ∈ l, p x = true → f x ≤ f r := by
  intro l
  induction l with
  | nil => intro _ r hr; simp [List.find?] at hr
  | cons a l ih =>
    intro hpw r hr x hx hpx
    rw [List.find?_cons] at hr
    rcases List.pairwise_cons.mp hpw with ⟨hall, hpl⟩
    by_cases hpa : p a = true
    · rw [hpa] at hr
      have hra : a = r := Option.some.inj hr
      subst hra
      rcases List.mem_cons.mp hx with hxa | hxl
      · subst hxa; exact Nat.le_refl _
      · exact hall x hxl
    · have hfa : p a = false := by
        cases h : p a
        · rfl
        · exact absurd h hpa
      rw [hfa] at hr
      rcases List.mem_cons.mp hx with hxa | hxl
      · subst hxa; exact absurd hpx hpa
      · exact ih hpl r hr x hxl hpx

theorem find?_crDocker (tail : Chars) :
    ∀ l : List String,
      (∀ k ∈ l, k = "cr-docker" ∨
        (!(expectedPathOf k).isPrefixOf "/cr/docker/".data
          && !("/cr/docker/".data).isPrefixOf (expectedPathOf k)) = true) →
      "cr-docker" ∈ l →
      l.find? (fun k => (expectedPathOf k).isPrefixOf ("/cr/docker/".data ++ tail))
        = some "cr-docker" := by
  intro l
  induction l with
  | nil => intro _ h; simp at h
  | cons a l ih =>
    intro hall hmem
    rw [List.find?_cons]
    by_cases ha : a = "cr-docker"
    · subst ha
      have hpred : (expectedPathOf "cr-docker").isPrefixOf ("/cr/docker/".data ++ tail)
          = true := by
        rw [show expectedPathOf "cr-docker" = "/cr/docker/".data from by decide]
        exact isPrefixOf_self_append _ _
      rw [hpred]
    · have hinc := (hall a (List.mem_cons_self a l)).resolve_left ha
      simp only [Bool.and_eq_true, Bool.not_eq_true'] at hinc
      have hpred : (expectedPathOf a).isPrefixOf ("/cr/docker/".data ++ tail) = false := by
        cases hcon : (expectedPathOf a).isPrefixOf ("/cr/docker/".data ++ tail) with
        | false => rfl
        | true =>
          rcases isPrefixOf_append_split "/cr/docker/".data (expectedPathOf a) tail hcon
            with h1 | h2
          · rw [h1] at hinc
            exact absurd hinc.1 (by simp)
          · rw [h2] at hinc
            exact absurd hinc.2 (by simp)
      rw [hpred]
      exact ih (fun k hk => hall k (List.mem_cons_of_mem a hk))
        ((List.mem_cons.mp hmem).resolve_left fun h => ha h.symm)

theorem sortedPlatformsSorted :
    List.Pairwise
      (fun a b => (expectedPathOf b).length ≤ (expectedPathOf a).length)
      SORTED_PLATFORMS := by
  decide

theorem sortedPlatformsCrDockerCompat :
    ∀ k ∈ SORTED_PLATFORMS, k = "cr-docker" ∨
      (!(expectedPathOf k).isPrefixOf "/cr/docker/".data
        && !("/cr/docker/".data).isPrefixOf (expectedPathOf k)) = true := by
  decide

theorem crDocker_mem_sorted : "cr-docker" ∈ SORTED_PLATFORMS := by decide

/-- Claim C3: `SORTED_PLATFORMS` orders candidate keys by route-path
length descending, so when one registered key's path prefix is a proper
prefix of another's, resolution of a path matching both picks a key whose
prefix is at least as long as the longer one (never the shorter key); in
particular every path beginning `/cr/docker/` resolves to `cr-docker`. -/
theorem C3_platform_resolution :
    (∀ k1 k2 : String, k1 ∈ PLATFORM_KEYS → k2 ∈ PLATFORM_KEYS →
      (expectedPathOf k1).isPrefixOf (expectedPathOf k2) = true →
      (expectedPathOf k1).length < (expectedPathOf k2).length →
      ∀ path : String, (expectedPathOf k2).isPrefixOf path.data = true →
      ∃ r, resolvePlatform path = some r ∧
        (expectedPathOf k2).length ≤ (expectedPathOf r).length ∧ r ≠ k1) ∧
    (∀ rest : String,
      resolvePlatform ("/cr/docker/" ++ rest) = some "cr-docker") := by
  constructor
  · intro k1 k2 hk1 hk2 hpref hlen path hmatch
    have hk2s : k2 ∈ SORTED_PLATFORMS := by
      unfold SORTED_PLATFORMS
      exact (mem_stableSortBy _ _ _).mpr hk2
    cases hf : SORTED_PLATFORMS.find?
        (fun k => (expectedPathOf k).isPrefixOf path.data) with
    | none =>
      exact absurd hmatch (List.find?_eq_none.mp hf k2 hk2s)
    | some r =>
      have hres : resolvePlatform path = some r := by
        unfold resolvePlatform
        rw [hf]
      have hmax := find?_max_of_sorted
        (f := fun k => (expectedPathOf k).length)
        (fun k => (expectedPathOf k).isPrefixOf path.data)
        SORTED_PLATFORMS sortedPlatformsSorted r hf k2 hk2s hmatch
      have hmaxr : (expectedPathOf k2).length ≤ (expectedPathOf r).length := hmax
      refine ⟨r, hres, hmaxr, ?_⟩
      intro hreq
      subst hreq
      omega
  · intro rest
    unfold resolvePlatform
    rw [show ("/cr/docker/" ++ rest).data = "/cr/docker/".data ++ rest.data from
      String.data_append _ _]
    rw [find?_crDocker rest.data SORTED_PLATFORMS sortedPlatformsCrDockerCompat
      crDocker_mem_sorted]

theorem C3_platform_resolution_witness :
    (∃ r, resolvePlatform "/conda/community/pkgs/main/x.tar.bz2" = some r ∧
      (expectedPathOf "conda-community").length ≤ (expectedPathOf r).length ∧
      r ≠ "conda") ∧
    resolvePlatform ("/cr/docker/" ++ "library/ubuntu/manifests/latest")
      = some "cr-docker" :=
  ⟨C3_platform_resolution.1 "conda" "conda-community" (by decide) (by decide)
      (by decide) (by decide) "/conda/community/pkgs/main/x.tar.bz2" (by decide),
   C3_platform_resolution.2 "library/ubuntu/manifests/latest"⟩
